import Mathlib

/-!
Shallow embedding of the SSO link-verification core of `src/app.py`
(KPIQ Starter Report).

The Python code uses `hmac.new(secret, payload, hashlib.sha256).hexdigest()`;
we embed a complete executable HMAC-SHA256 over byte lists (bytes are `Nat`
with explicit `% 2^32` reductions for the 32-bit words of SHA-256), UTF-8
encoding of strings, Python's `int()` parsing of the timestamp string, and
the `validate_sso` / `_val` / `_sig_header` functions themselves.

Error paths are explicit: `_val` on an empty list value raises `IndexError`
and `hmac.compare_digest` raises `TypeError` when either `str` argument
contains a non-ASCII character; both are modelled as `none`. The `int()`
model is exact on ASCII strings (CPython also parses non-ASCII decimal
digits and strips only the ASCII whitespace 9-13 and 32 in the ASCII range,
which the model mirrors); statements about parse FAILURE therefore restrict
the timestamp string to ASCII, where the model's failures coincide with
CPython's `ValueError`.
-/

set_option maxRecDepth 100000

namespace KPIQ

/-! ### SHA-256 (FIPS 180-4), over `List Nat` bytes, words as `Nat % 2^32` -/

def M32 : Nat := 4294967296

def rotr (n x : Nat) : Nat := ((x >>> n) ||| (x <<< (32 - n))) % M32

def bigSigma0 (x : Nat) : Nat := (rotr 2 x) ^^^ (rotr 13 x) ^^^ (rotr 22 x)

def bigSigma1 (x : Nat) : Nat := (rotr 6 x) ^^^ (rotr 11 x) ^^^ (rotr 25 x)

def smallSigma0 (x : Nat) : Nat := (rotr 7 x) ^^^ (rotr 18 x) ^^^ (x >>> 3)

def smallSigma1 (x : Nat) : Nat := (rotr 17 x) ^^^ (rotr 19 x) ^^^ (x >>> 10)

def chF (e f g : Nat) : Nat := (e &&& f) ^^^ ((e ^^^ 4294967295) &&& g)

def majF (a b c : Nat) : Nat := (a &&& b) ^^^ (a &&& c) ^^^ (b &&& c)

def K : List Nat :=
  [1116352408, 1899447441, 3049323471, 3921009573, 961987163,
   1508970993, 2453635748, 2870763221, 3624381080, 310598401,
   607225278, 1426881987, 1925078388, 2162078206, 2614888103,
   3248222580, 3835390401, 4022224774, 264347078, 604807628,
   770255983, 1249150122, 1555081692, 1996064986, 2554220882,
   2821834349, 2952996808, 3210313671, 3336571891, 3584528711,
   113926993, 338241895, 666307205, 773529912, 1294757372,
   1396182291, 1695183700, 1986661051, 2177026350, 2456956037,
   2730485921, 2820302411, 3259730800, 3345764771, 3516065817,
   3600352804, 4094571909, 275423344, 430227734, 506948616,
   659060556, 883997877, 958139571, 1322822218, 1537002063,
   1747873779, 1955562222, 2024104815, 2227730452, 2361852424,
   2428436474, 2756734187, 3204031479, 3329325298]

structure Hash8 where
  a : Nat
  b : Nat
  c : Nat
  d : Nat
  e : Nat
  f : Nat
  g : Nat
  h : Nat

def H0 : Hash8 :=
  ⟨1779033703, 3144134277, 1013904242, 2773480762,
   1359893119, 2600822924, 528734635, 1541459225⟩

def roundStep (st : Hash8) (kw : Nat × Nat) : Hash8 :=
  let t1 := (st.h + bigSigma1 st.e + chF st.e st.f st.g + kw.1 + kw.2) % M32
  let t2 := (bigSigma0 st.a + majF st.a st.b st.c) % M32
  ⟨(t1 + t2) % M32, st.a, st.b, st.c, (st.d + t1) % M32, st.e, st.f, st.g⟩

def toWordsBE (block : List Nat) : List Nat :=
  (List.range 16).map fun i =>
    ((block.getD (4 * i) 0) <<< 24) ||| ((block.getD (4 * i + 1) 0) <<< 16) |||
      ((block.getD (4 * i + 2) 0) <<< 8) ||| (block.getD (4 * i + 3) 0)

def schedule (w0 : List Nat) : List Nat :=
  (List.range 48).foldl
    (fun w i =>
      w ++ [(smallSigma1 (w.getD (i + 14) 0) + w.getD (i + 9) 0 +
             smallSigma0 (w.getD (i + 1) 0) + w.getD i 0) % M32])
    w0

def compressBlock (st : Hash8) (block : List Nat) : Hash8 :=
  let r := (K.zip (schedule (toWordsBE block))).foldl roundStep st
  ⟨(st.a + r.a) % M32, (st.b + r.b) % M32, (st.c + r.c) % M32, (st.d + r.d) % M32,
   (st.e + r.e) % M32, (st.f + r.f) % M32, (st.g + r.g) % M32, (st.h + r.h) % M32⟩

def beBytes8 (n : Nat) : List Nat :=
  (List.range 8).map fun i => (n >>> (8 * (7 - i))) &&& 255

def pad (msg : List Nat) : List Nat :=
  msg ++ [128] ++ List.replicate ((120 - ((msg.length + 1) % 64)) % 64) 0 ++
    beBytes8 (8 * msg.length)

def chunks64 (l : List Nat) : List (List Nat) :=
  (List.range (l.length / 64)).map fun i => (l.drop (64 * i)).take 64

def wordBytesBE (w : Nat) : List Nat :=
  [(w >>> 24) &&& 255, (w >>> 16) &&& 255, (w >>> 8) &&& 255, w &&& 255]

def sha256Bytes (msg : List Nat) : List Nat :=
  let st := (chunks64 (pad msg)).foldl compressBlock H0
  wordBytesBE st.a ++ wordBytesBE st.b ++ wordBytesBE st.c ++ wordBytesBE st.d ++
    wordBytesBE st.e ++ wordBytesBE st.f ++ wordBytesBE st.g ++ wordBytesBE st.h

/-! ### Hex encoding (lowercase, as `hexdigest()`) and UTF-8 -/

def hexChar (n : Nat) : Char := if n < 10 then Char.ofNat (48 + n) else Char.ofNat (87 + n)

def bytesToHex (bs : List Nat) : String :=
  ⟨bs.foldr (fun b acc => hexChar (b >>> 4) :: hexChar (b &&& 15) :: acc) []⟩

def utf8Bytes (c : Char) : List Nat :=
  let n := c.toNat
  if n < 128 then [n]
  else if n < 2048 then [192 ||| (n >>> 6), 128 ||| (n &&& 63)]
  else if n < 65536 then
    [224 ||| (n >>> 12), 128 ||| ((n >>> 6) &&& 63), 128 ||| (n &&& 63)]
  else
    [240 ||| (n >>> 18), 128 ||| ((n >>> 12) &&& 63), 128 ||| ((n >>> 6) &&& 63),
     128 ||| (n &&& 63)]

def strBytes (s : String) : List Nat := s.data.foldr (fun c acc => utf8Bytes c ++ acc) []

/-! ### HMAC-SHA256 (RFC 2104), block size 64 bytes -/

def hmacSha256 (key msg : List Nat) : List Nat :=
  let k0 := if 64 < key.length then sha256Bytes key else key
  let kp := k0 ++ List.replicate (64 - k0.length) 0
  sha256Bytes ((kp.map fun b => b ^^^ 0x5c) ++ sha256Bytes ((kp.map fun b => b ^^^ 0x36) ++ msg))

/-- Embedding of `sign(payload, secret)` of `src/app.py` line 28: hex HMAC-SHA256
of the UTF-8 bytes of `payload`, keyed with the UTF-8 bytes of `secret`. -/
def sign (payload : String) (secret : String) : String :=
  bytesToHex (hmacSha256 (strBytes secret) (strBytes payload))

/-! ### Python `int()` on strings (the subset relevant to `int(ts)`):
optional surrounding ASCII whitespace, an optional sign, then a non-empty
digit run in which single underscores may separate digits. -/

def digitVal (c : Char) : Nat := c.toNat - 48

def isPySpace (c : Char) : Bool :=
  c == ' ' || c == Char.ofNat 9 || c == Char.ofNat 10 || c == Char.ofNat 11 ||
    c == Char.ofNat 12 || c == Char.ofNat 13

def pyDigitsAux : Nat → List Char → Option Nat
  | acc, [] => some acc
  | acc, c :: rest =>
    if c.isDigit then pyDigitsAux (10 * acc + digitVal c) rest
    else if c == '_' then
      match rest with
      | [] => none
      | d :: rest2 =>
        if d.isDigit then pyDigitsAux (10 * acc + digitVal d) rest2 else none
    else none

def pyDigits : List Char → Option Nat
  | [] => none
  | c :: rest => if c.isDigit then pyDigitsAux (digitVal c) rest else none

/-- Embedding of Python `int(s)` for a `str` argument (`None` = `ValueError`).
Exact on ASCII strings; CPython additionally parses non-ASCII decimal digits,
so parse-failure statements carry an ASCII hypothesis on the string. -/
def pyInt (s : String) : Option Int :=
  match ((s.data.dropWhile isPySpace).reverse.dropWhile isPySpace).reverse with
  | '+' :: rest => (pyDigits rest).map fun n => (n : Int)
  | '-' :: rest => (pyDigits rest).map fun n => -(n : Int)
  | rest => (pyDigits rest).map fun n => (n : Int)

/-! ### The query-parameter model

A Python query-parameter dict maps string keys to either a single string or a
list of strings (older Streamlit returns lists). We model it as an association
list with unique-key lookup (`List.lookup` finds the first binding, which is
the only one for a dict). `none` results model a raised exception. -/

inductive QVal where
  | single (s : String)
  | multi (l : List String)
deriving DecidableEq

abbrev Query := List (String × QVal)

/-- Embedding of `_val(q, key)` of `src/app.py` lines 38-41.
`q.get(key)` is `None` for an absent key, giving `""`; a list value yields its
first element — and raises `IndexError` (modelled as `none`) when empty. -/
def _val (q : Query) (key : String) : Option String :=
  match List.lookup key q with
  | none => some ""
  | some (QVal.single s) => some s
  | some (QVal.multi []) => none
  | some (QVal.multi (x :: _)) => some x

/-- Whether every character of a string is ASCII (code point below 128). -/
def isAsciiStr (s : String) : Bool := s.data.all fun c => decide (c.toNat < 128)

/-- Embedding of `hmac.compare_digest` on two `str` arguments: CPython raises
`TypeError` (modelled as `none`) when either string contains a non-ASCII
character; otherwise it returns whether the strings are equal (the
constant-time execution is not observable in a functional embedding). -/
def compare_digest (a b : String) : Option Bool :=
  if isAsciiStr a && isAsciiStr b then some (a == b) else none

/-- Embedding of `validate_sso(q)` of `src/app.py` lines 43-72, with the
process-wide configuration `ENABLED_PLANS`, `SSO_SECRET` and the current time
`int(time.time())` passed explicitly. `none` models an uncaught exception. -/
def validate_sso (ENABLED_PLANS : List String) (SSO_SECRET : String) (now : Int)
    (q : Query) : Option (Bool × String) :=
  if (["email", "shop", "plan", "ts", "sig"].any fun k => (List.lookup k q).isNone) then
    some (false, "Missing SSO parameters.")
  else
    (_val q "email").bind fun email =>
    (_val q "shop").bind fun shop =>
    (_val q "plan").bind fun plan =>
    (_val q "ts").bind fun ts =>
    (_val q "sig").bind fun sig =>
    match pyInt ts with
    | none => some (false, "Invalid timestamp.")
    | some ts_int =>
      if 600 < (now - ts_int).natAbs then some (false, "SSO link expired.")
      else if !ENABLED_PLANS.contains plan then
        some (false, "Plan \x27" ++ plan ++ "\x27 not enabled.")
      else if SSO_SECRET = "" then
        some (false, "Server misconfigured (SSO secret missing).")
      else
        match compare_digest (sign (email ++ "|" ++ shop ++ "|" ++ plan ++ "|" ++ toString ts_int) SSO_SECRET) sig with
        | none => none
        | some ok =>
          if !ok then some (false, "Invalid SSO signature.")
          else some (true, "")

/-- Embedding of `DATA_API_SECRET = os.getenv("KPIQ_DATA_API_SECRET", SSO_SECRET)`
(`src/app.py` line 23): the downstream secret defaults to the inbound SSO secret
when the environment variable is unset. -/
def DATA_API_SECRET (envValue : Option String) (SSO_SECRET : String) : String :=
  envValue.getD SSO_SECRET

/-- Embedding of `_sig_header(email, shop, plan, ts)` of `src/app.py` lines
105-107: signs the raw field strings with `DATA_API_SECRET or ""`. -/
def _sig_header (dataApiSecret : String) (email shop plan ts : String) : String :=
  sign (email ++ "|" ++ shop ++ "|" ++ plan ++ "|" ++ ts)
    (if dataApiSecret = "" then "" else dataApiSecret)

/-- A query mapping each of the five required keys to a single string value,
as the issuer sends it. -/
def mkQuery (email shop plan ts sig : String) : Query :=
  [("email", QVal.single email), ("shop", QVal.single shop),
   ("plan", QVal.single plan), ("ts", QVal.single ts), ("sig", QVal.single sig)]

/-- First-value-wins normalization of a query mapping: every non-empty
multi-value entry is replaced by its first element. -/
def firstValue : QVal → QVal
  | QVal.single s => QVal.single s
  | QVal.multi [] => QVal.multi []
  | QVal.multi (x :: _) => QVal.single x

/-- Pointwise normalization of a whole mapping. -/
def firstVals (q : Query) : Query := q.map fun p => (p.1, firstValue p.2)

/-- Known-answer test, FIPS 180-4: SHA-256 of the ASCII string abc. -/
theorem sha256_known_answer :
    bytesToHex (sha256Bytes (strBytes "abc")) =
      "ba7816bf8f01cfea414140de5dae2223b00361a396177a9cb410ff61f20015ad" := by
  decide

/-- Known-answer test, RFC 4231 test case 2 for HMAC-SHA256. -/
theorem hmac_known_answer :
    sign "what do ya want for nothing?" "Jefe" =
      "5bdcc146bf60754e6a042426089575c75a003f089d2739839dec58b964ec3843" := by
  decide

/-! ### The hex digest produced by `sign` is ASCII -/

/-- A hex digit character is ASCII. -/
theorem hexChar_ascii : ∀ n < 16, (hexChar n).toNat < 128 := by decide

/-- Big-endian word serialization produces bytes. -/
theorem wordBytesBE_lt (w : Nat) : ∀ b ∈ wordBytesBE w, b < 256 := by
  intro b hb
  simp only [wordBytesBE, List.mem_cons, List.not_mem_nil, or_false] at hb
  rcases hb with rfl | rfl | rfl | rfl <;>
    exact lt_of_le_of_lt Nat.and_le_right (by norm_num)

/-- The SHA-256 digest consists of bytes. -/
theorem sha256Bytes_lt (msg : List Nat) : ∀ b ∈ sha256Bytes msg, b < 256 := by
  intro b hb
  unfold sha256Bytes at hb
  simp only [List.mem_append] at hb
  rcases hb with ((((((hb | hb) | hb) | hb) | hb) | hb) | hb) | hb <;>
    exact wordBytesBE_lt _ b hb

/-- The HMAC-SHA256 digest consists of bytes. -/
theorem hmacSha256_lt (key msg : List Nat) : ∀ b ∈ hmacSha256 key msg, b < 256 := by
  intro b hb
  unfold hmacSha256 at hb
  exact sha256Bytes_lt _ b hb

/-- Hex encoding of bytes yields an ASCII string. -/
theorem bytesToHex_ascii (bs : List Nat) (h : ∀ b ∈ bs, b < 256) :
    isAsciiStr (bytesToHex bs) = true := by
  unfold isAsciiStr bytesToHex
  induction bs with
  | nil => rfl
  | cons b rest ih =>
    simp only [List.foldr_cons, List.all_cons, Bool.and_eq_true, decide_eq_true_eq]
    have hb : b < 256 := h b (List.mem_cons_self _ _)
    refine ⟨?_, ?_, ?_⟩
    · refine hexChar_ascii _ ?_
      rw [Nat.shiftRight_eq_div_pow]
      omega
    · exact hexChar_ascii _ (lt_of_le_of_lt Nat.and_le_right (by norm_num))
    · have := ih fun x hx => h x (List.mem_cons_of_mem _ hx)
      simpa using this

/-- The signature hex digest is always ASCII (it is what `hexdigest()`
returns), so the left argument of the comparison never raises. -/
theorem sign_ascii (payload secret : String) : isAsciiStr (sign payload secret) = true := by
  unfold sign
  exact bytesToHex_ascii _ (hmacSha256_lt _ _)

/-- Comparison of the recomputed digest against an ASCII candidate returns
the equality verdict. -/
theorem compare_digest_sign (p s x : String) (hx : isAsciiStr x = true) :
    compare_digest (sign p s) x = some (sign p s == x) := by
  simp [compare_digest, sign_ascii, hx]

/-- Comparison of the recomputed digest against a non-ASCII candidate raises
`TypeError`. -/
theorem compare_digest_nonascii (a x : String) (hx : isAsciiStr x = false) :
    compare_digest a x = none := by
  simp [compare_digest, hx]

/-! ### Helper lemmas about `validate_sso` -/

/-- When the five keys are present and each `_val` extraction succeeds,
`validate_sso` reduces to the check chain over the extracted field values. -/
theorem validate_sso_extract (plans : List String) (secret : String) (now : Int)
    (q : Query) (email shop plan ts sigv : String)
    (hkE : (List.lookup "email" q).isNone = false)
    (hkS : (List.lookup "shop" q).isNone = false)
    (hkP : (List.lookup "plan" q).isNone = false)
    (hkT : (List.lookup "ts" q).isNone = false)
    (hkG : (List.lookup "sig" q).isNone = false)
    (he : _val q "email" = some email) (hs : _val q "shop" = some shop)
    (hp : _val q "plan" = some plan) (ht : _val q "ts" = some ts)
    (hg : _val q "sig" = some sigv) :
    validate_sso plans secret now q =
      match pyInt ts with
      | none => some (false, "Invalid timestamp.")
      | some ts_int =>
        if 600 < (now - ts_int).natAbs then some (false, "SSO link expired.")
        else if !plans.contains plan then
          some (false, "Plan \x27" ++ plan ++ "\x27 not enabled.")
        else if secret = "" then
          some (false, "Server misconfigured (SSO secret missing).")
        else
          match compare_digest (sign (email ++ "|" ++ shop ++ "|" ++ plan ++ "|" ++ toString ts_int) secret) sigv with
          | none => none
          | some ok =>
            if !ok then some (false, "Invalid SSO signature.")
            else some (true, "") := by
  have hany : (["email", "shop", "plan", "ts", "sig"].any fun k =>
      (List.lookup k q).isNone) = false := by
    simp [List.any_cons, List.any_nil, hkE, hkS, hkP, hkT, hkG]
  unfold validate_sso
  rw [hany, if_neg (by decide : ¬((false : Bool) = true)), he, hs, hp, ht, hg]
  simp only [Option.some_bind]

/-- Specialization of the extraction lemma to a parsed timestamp. -/
theorem validate_sso_extract_some (plans : List String) (secret : String) (now : Int)
    (q : Query) (email shop plan ts sigv : String) (T : Int)
    (hkE : (List.lookup "email" q).isNone = false)
    (hkS : (List.lookup "shop" q).isNone = false)
    (hkP : (List.lookup "plan" q).isNone = false)
    (hkT : (List.lookup "ts" q).isNone = false)
    (hkG : (List.lookup "sig" q).isNone = false)
    (he : _val q "email" = some email) (hs : _val q "shop" = some shop)
    (hp : _val q "plan" = some plan) (ht : _val q "ts" = some ts)
    (hg : _val q "sig" = some sigv)
    (hT : pyInt ts = some T) :
    validate_sso plans secret now q =
      (if 600 < (now - T).natAbs then some (false, "SSO link expired.")
       else if !plans.contains plan then
         some (false, "Plan \x27" ++ plan ++ "\x27 not enabled.")
       else if secret = "" then
         some (false, "Server misconfigured (SSO secret missing).")
       else
         match compare_digest (sign (email ++ "|" ++ shop ++ "|" ++ plan ++ "|" ++ toString T) secret) sigv with
         | none => none
         | some ok =>
           if !ok then some (false, "Invalid SSO signature.")
           else some (true, "")) := by
  rw [validate_sso_extract plans secret now q email shop plan ts sigv hkE hkS hkP hkT hkG he hs hp ht hg, hT]

/-- Specialization of the extraction lemma to an unparsable timestamp. -/
theorem validate_sso_extract_none (plans : List String) (secret : String) (now : Int)
    (q : Query) (email shop plan ts sigv : String)
    (hkE : (List.lookup "email" q).isNone = false)
    (hkS : (List.lookup "shop" q).isNone = false)
    (hkP : (List.lookup "plan" q).isNone = false)
    (hkT : (List.lookup "ts" q).isNone = false)
    (hkG : (List.lookup "sig" q).isNone = false)
    (he : _val q "email" = some email) (hs : _val q "shop" = some shop)
    (hp : _val q "plan" = some plan) (ht : _val q "ts" = some ts)
    (hg : _val q "sig" = some sigv)
    (hT : pyInt ts = none) :
    validate_sso plans secret now q = some (false, "Invalid timestamp.") := by
  rw [validate_sso_extract plans secret now q email shop plan ts sigv hkE hkS hkP hkT hkG he hs hp ht hg, hT]

/-- A successful lookup binding is a member of the association list. -/
theorem mem_of_lookup {q : Query} {k : String} {v : QVal}
    (h : List.lookup k q = some v) : (k, v) ∈ q := by
  induction q with
  | nil => simp [List.lookup] at h
  | cons p rest ih =>
    rcases p with ⟨a, b⟩
    rw [List.lookup] at h
    rcases hk : (k == a) with _ | _
    · rw [hk] at h
      exact List.mem_cons_of_mem _ (ih h)
    · rw [hk] at h
      injection h with h2
      subst h2
      exact (eq_of_beq hk) ▸ List.mem_cons_self _ _

/-- Field extraction cannot raise when no value is an empty list. -/
theorem _val_isSome {q : Query} (hq : ∀ p ∈ q, p.2 ≠ QVal.multi []) (k : String) :
    (_val q k).isSome = true := by
  unfold _val
  rcases hl : List.lookup k q with _ | v
  · rfl
  · rcases v with s | l
    · rfl
    · rcases l with _ | ⟨x, xs⟩
      · exact absurd rfl (hq (k, QVal.multi []) (mem_of_lookup hl))
      · rfl

/-- Lookup commutes with first-value normalization. -/
theorem lookup_firstVals (q : Query) (k : String) :
    List.lookup k (firstVals q) = (List.lookup k q).map firstValue := by
  induction q with
  | nil => rfl
  | cons p rest ih =>
    rcases p with ⟨a, v⟩
    rcases hk : (k == a) with _ | _
    · simp only [firstVals, List.map_cons, List.lookup, hk]
      simpa [firstVals] using ih
    · simp [firstVals, List.lookup, hk]

/-- Field extraction is unchanged by first-value normalization. -/
theorem _val_firstVals (q : Query) (k : String) : _val (firstVals q) k = _val q k := by
  unfold _val
  rw [lookup_firstVals]
  rcases List.lookup k q with _ | v
  · rfl
  · rcases v with s | l
    · rfl
    · rcases l with _ | ⟨x, xs⟩ <;> rfl

/-- Key presence is unchanged by first-value normalization. -/
theorem isNone_lookup_firstVals (q : Query) (k : String) :
    (List.lookup k (firstVals q)).isNone = (List.lookup k q).isNone := by
  rw [lookup_firstVals]
  rcases List.lookup k q with _ | v <;> rfl

/-- The plan-rejection message starts with a distinctive character, hence
differs from every message whose first character is not that one. -/
theorem plan_msg_ne (plan : String) (m : String) (hm : m.data.headD 'A' ≠ 'P') :
    "Plan \x27" ++ plan ++ "\x27 not enabled." ≠ m := by
  intro h
  apply hm
  rw [← h]
  rfl

/-! ### The claims -/

/-- C1 counterexample: on a valid tuple, flipping the first character of the
correct signature to the non-ASCII character with code point 233 makes the
program raise `TypeError` in `hmac.compare_digest` (modelled `none`) instead
of returning the invalid-signature rejection. -/
theorem C1_counterexample :
    Char.ofNat 233 ≠
      (sign ("a" ++ "|" ++ "b" ++ "|" ++ "starter" ++ "|" ++ toString (600 : Int)) "s").data.getD 0 'A' ∧
    validate_sso ["starter"] "s" 600
      (mkQuery "a" "b" "starter" "600"
        ⟨(sign ("a" ++ "|" ++ "b" ++ "|" ++ "starter" ++ "|" ++ toString (600 : Int)) "s").data.set 0 (Char.ofNat 233)⟩) =
      none := by
  constructor
  · decide
  · decide

/-- C1 amended: for every request that passes the presence, timestamp-parse,
replay-window, plan-membership and secret-presence checks, `validate_sso`
accepts exactly when the supplied `sig` equals the hex HMAC-SHA256 of the
canonical payload keyed with the configured secret; replacing any single
character of the correct signature by a different ASCII character yields the
invalid-signature rejection, while a non-ASCII supplied signature makes the
comparison raise `TypeError` instead. -/
theorem C1_signature_iff_flip_ascii (plans : List String) (secret : String) (now : Int)
    (q : Query) (email shop plan ts sigv : String) (T : Int)
    (hkE : (List.lookup "email" q).isNone = false)
    (hkS : (List.lookup "shop" q).isNone = false)
    (hkP : (List.lookup "plan" q).isNone = false)
    (hkT : (List.lookup "ts" q).isNone = false)
    (hkG : (List.lookup "sig" q).isNone = false)
    (he : _val q "email" = some email) (hs : _val q "shop" = some shop)
    (hp : _val q "plan" = some plan) (ht : _val q "ts" = some ts)
    (hg : _val q "sig" = some sigv)
    (hT : pyInt ts = some T) (hwin : (now - T).natAbs ≤ 600)
    (hmem : plan ∈ plans) (hsec : secret ≠ "") :
    (validate_sso plans secret now q = some (true, "") ↔
      sigv = sign (email ++ "|" ++ shop ++ "|" ++ plan ++ "|" ++ toString T) secret) ∧
    (∀ (i : Nat) (c : Char), c.toNat < 128 →
      i < (sign (email ++ "|" ++ shop ++ "|" ++ plan ++ "|" ++ toString T) secret).data.length →
      c ≠ (sign (email ++ "|" ++ shop ++ "|" ++ plan ++ "|" ++ toString T) secret).data.getD i 'A' →
      sigv.data = (sign (email ++ "|" ++ shop ++ "|" ++ plan ++ "|" ++ toString T) secret).data.set i c →
      validate_sso plans secret now q = some (false, "Invalid SSO signature.")) ∧
    (isAsciiStr sigv = false → validate_sso plans secret now q = none) := by
  set s0 := sign (email ++ "|" ++ shop ++ "|" ++ plan ++ "|" ++ toString T) secret with hs0
  have hcont : plans.contains plan = true := List.elem_eq_true_of_mem hmem
  have hred : validate_sso plans secret now q =
      (match compare_digest s0 sigv with
       | none => none
       | some ok =>
         if !ok then some (false, "Invalid SSO signature.") else some (true, "")) := by
    rw [validate_sso_extract_some plans secret now q email shop plan ts sigv T
        hkE hkS hkP hkT hkG he hs hp ht hg hT,
      if_neg (not_lt.mpr hwin), hcont]
    simp [hsec, hs0]
  refine ⟨?_, ?_, ?_⟩
  · rw [hred]
    rcases hA : isAsciiStr sigv with _ | _
    · rw [hs0, compare_digest_nonascii _ _ hA]
      constructor
      · intro h
        exact absurd h (by decide)
      · intro h
        rw [h, sign_ascii] at hA
        exact absurd hA (by decide)
    · have hcd : compare_digest s0 sigv = some (s0 == sigv) := by
        rw [hs0]
        exact compare_digest_sign _ _ _ hA
      rw [hcd]
      by_cases hEq : sigv = s0
      · subst hEq
        simp
      · have hb : (s0 == sigv) = false := beq_eq_false_iff_ne.mpr fun h2 => hEq h2.symm
        rw [hb]
        constructor
        · intro h
          exact absurd h (by decide)
        · intro h
          exact absurd h hEq
  · intro i c hc128 hi hc hset
    have hne : sigv ≠ s0 := by
      intro hEq
      apply hc
      have hsetEq : s0.data.set i c = s0.data := by
        rw [← hset, hEq]
      have hgd : (s0.data.set i c).getD i 'A' = c := by
        rw [List.getD_eq_getElem _ 'A' (by simpa using hi)]
        exact List.getElem_set_self ..
      rw [← hsetEq]
      exact hgd.symm
    have hs0A : isAsciiStr s0 = true := by
      rw [hs0]
      exact sign_ascii _ _
    have hAs : isAsciiStr sigv = true := by
      unfold isAsciiStr at hs0A ⊢
      rw [hset]
      simp only [List.all_eq_true, decide_eq_true_eq] at hs0A ⊢
      intro x hx
      rcases List.mem_or_eq_of_mem_set hx with hx2 | rfl
      · exact hs0A x hx2
      · exact hc128
    have hcd : compare_digest s0 sigv = some (s0 == sigv) := by
      rw [hs0]
      exact compare_digest_sign _ _ _ hAs
    have hb : (s0 == sigv) = false := beq_eq_false_iff_ne.mpr fun h2 => hne h2.symm
    rw [hred, hcd, hb]
    rfl
  · intro hA
    rw [hred, hs0, compare_digest_nonascii _ _ hA]

/-- C1 witness: a concrete valid tuple whose correct signature has its first
character replaced by the ASCII non-hex character z is rejected as invalid. -/
theorem C1_witness :
    validate_sso ["starter"] "s" 600
      (mkQuery "a" "b" "starter" "600"
        ⟨(sign ("a" ++ "|" ++ "b" ++ "|" ++ "starter" ++ "|" ++ toString (600 : Int)) "s").data.set 0 'z'⟩) =
      some (false, "Invalid SSO signature.") :=
  (C1_signature_iff_flip_ascii ["starter"] "s" 600
      (mkQuery "a" "b" "starter" "600"
        ⟨(sign ("a" ++ "|" ++ "b" ++ "|" ++ "starter" ++ "|" ++ toString (600 : Int)) "s").data.set 0 'z'⟩)
      "a" "b" "starter" "600"
      ⟨(sign ("a" ++ "|" ++ "b" ++ "|" ++ "starter" ++ "|" ++ toString (600 : Int)) "s").data.set 0 'z'⟩ 600
      rfl rfl rfl rfl rfl rfl rfl rfl rfl rfl
      (by decide) (by decide) (by decide) (by decide)).2.1
    0 'z' (by decide) (by decide) (by decide) rfl

/-- C2: every tuple with all five fields supplied and non-empty, an enabled
plan, a timestamp within 600 seconds of now, and a configured secret is
accepted when the signature is computed by `sign` over the canonical
payload. -/
theorem C2_valid_signature_accepted (plans : List String) (secret : String) (now : Int)
    (email shop plan ts : String) (T : Int)
    (hemail : email ≠ "") (hshop : shop ≠ "") (hplan : plan ≠ "") (hts : ts ≠ "")
    (hT : pyInt ts = some T) (hwin : (now - T).natAbs ≤ 600)
    (hmem : plan ∈ plans) (hsec : secret ≠ "") :
    validate_sso plans secret now
      (mkQuery email shop plan ts
        (sign (email ++ "|" ++ shop ++ "|" ++ plan ++ "|" ++ toString T) secret)) =
      some (true, "") := by
  have hcont : plans.contains plan = true := List.elem_eq_true_of_mem hmem
  rw [validate_sso_extract_some plans secret now
      (mkQuery email shop plan ts
        (sign (email ++ "|" ++ shop ++ "|" ++ plan ++ "|" ++ toString T) secret))
      email shop plan ts
      (sign (email ++ "|" ++ shop ++ "|" ++ plan ++ "|" ++ toString T) secret) T
      rfl rfl rfl rfl rfl rfl rfl rfl rfl rfl hT,
    if_neg (not_lt.mpr hwin), hcont]
  simp [compare_digest, sign_ascii, hsec]

/-- C3: with an empty configured secret no request is ever accepted, and any
request that passes the presence, parse, window and plan checks is rejected
as a server misconfiguration (fail closed). -/
theorem C3_fail_closed (plans : List String) (now : Int) :
    (∀ q : Query, validate_sso plans "" now q ≠ some (true, "")) ∧
    (∀ (q : Query) (email shop plan ts sigv : String) (T : Int),
      (List.lookup "email" q).isNone = false →
      (List.lookup "shop" q).isNone = false →
      (List.lookup "plan" q).isNone = false →
      (List.lookup "ts" q).isNone = false →
      (List.lookup "sig" q).isNone = false →
      _val q "email" = some email → _val q "shop" = some shop →
      _val q "plan" = some plan → _val q "ts" = some ts →
      _val q "sig" = some sigv →
      pyInt ts = some T → (now - T).natAbs ≤ 600 → plan ∈ plans →
      validate_sso plans "" now q =
        some (false, "Server misconfigured (SSO secret missing).")) := by
  constructor
  · intro q
    unfold validate_sso
    split
    · simp
    · rcases _val q "email" with _ | email
      · simp
      simp only [Option.some_bind]
      rcases _val q "shop" with _ | shop
      · simp
      simp only [Option.some_bind]
      rcases _val q "plan" with _ | plan
      · simp
      simp only [Option.some_bind]
      rcases _val q "ts" with _ | ts
      · simp
      simp only [Option.some_bind]
      rcases _val q "sig" with _ | sigv
      · simp
      simp only [Option.some_bind]
      rcases pyInt ts with _ | T
      · simp
      split
      · simp
      split
      · simp
      simp
      split <;> simp
  · intro q email shop plan ts sigv T hkE hkS hkP hkT hkG he hs hp ht hg hT hwin hmem
    have hcont : plans.contains plan = true := List.elem_eq_true_of_mem hmem
    rw [validate_sso_extract_some plans "" now q email shop plan ts sigv T
        hkE hkS hkP hkT hkG he hs hp ht hg hT,
      if_neg (not_lt.mpr hwin), hcont]
    simp

/-- C3 witness: a structurally valid request against an unconfigured secret. -/
theorem C3_witness :
    validate_sso ["starter"] "" 0 (mkQuery "a" "b" "starter" "0" "x") =
      some (false, "Server misconfigured (SSO secret missing).") :=
  (C3_fail_closed ["starter"] 0).2 (mkQuery "a" "b" "starter" "0" "x")
    "a" "b" "starter" "0" "x" 0 rfl rfl rfl rfl rfl rfl rfl rfl rfl rfl
    (by decide) (by decide) (by decide)

/-- C4: the replay window is symmetric and boundary-inclusive: the
link-expired rejection happens exactly when the distance from now exceeds
600 seconds, a valid tuple exactly 600 seconds away is accepted, and one
exactly 601 seconds away (either side) is rejected as expired. -/
theorem C4_window_boundary (plans : List String) (secret : String) (now : Int)
    (q : Query) (email shop plan ts sigv : String) (T : Int)
    (hkE : (List.lookup "email" q).isNone = false)
    (hkS : (List.lookup "shop" q).isNone = false)
    (hkP : (List.lookup "plan" q).isNone = false)
    (hkT : (List.lookup "ts" q).isNone = false)
    (hkG : (List.lookup "sig" q).isNone = false)
    (he : _val q "email" = some email) (hs : _val q "shop" = some shop)
    (hp : _val q "plan" = some plan) (ht : _val q "ts" = some ts)
    (hg : _val q "sig" = some sigv)
    (hT : pyInt ts = some T) :
    (validate_sso plans secret now q = some (false, "SSO link expired.") ↔
      600 < (now - T).natAbs) ∧
    (plan ∈ plans → secret ≠ "" →
      sigv = sign (email ++ "|" ++ shop ++ "|" ++ plan ++ "|" ++ toString T) secret →
      ((now = T + 600 ∨ now = T - 600) →
        validate_sso plans secret now q = some (true, "")) ∧
      ((now = T + 601 ∨ now = T - 601) →
        validate_sso plans secret now q = some (false, "SSO link expired."))) := by
  have hred := validate_sso_extract_some plans secret now q email shop plan ts sigv T
    hkE hkS hkP hkT hkG he hs hp ht hg hT
  constructor
  · constructor
    · intro h
      by_contra hgt
      rw [hred, if_neg hgt] at h
      rcases hb1 : (!plans.contains plan) with _ | _ <;> rw [hb1] at h
      · rw [if_neg (by decide : ¬((false : Bool) = true))] at h
        by_cases hsv : secret = ""
        · rw [if_pos hsv] at h
          exact absurd h (by decide)
        · rw [if_neg hsv] at h
          rcases hcd : compare_digest (sign (email ++ "|" ++ shop ++ "|" ++ plan ++ "|" ++ toString T) secret) sigv with _ | ok <;>
            rw [hcd] at h
          · exact absurd h (by decide)
          · rcases ok with _ | _ <;> exact absurd h (by decide)
      · rw [if_pos rfl] at h
        injection h with h1
        exact plan_msg_ne plan "SSO link expired." (by decide) (congrArg Prod.snd h1)
    · intro hgt
      rw [hred, if_pos hgt]
  · intro hmem hsec hsig
    have hcont : plans.contains plan = true := List.elem_eq_true_of_mem hmem
    subst hsig
    constructor
    · intro hnow
      have hwin : ¬ 600 < (now - T).natAbs := by
        rcases hnow with rfl | rfl <;> omega
      rw [hred, if_neg hwin, hcont]
      simp [compare_digest, sign_ascii, hsec]
    · intro hnow
      have hwin : 600 < (now - T).natAbs := by
        rcases hnow with rfl | rfl <;> omega
      rw [hred, if_pos hwin]

/-- C4 witness: a timestamp exactly 600 seconds in the past of now, on an
otherwise valid tuple, is accepted. -/
theorem C4_witness :
    validate_sso ["starter"] "s" 1200
      (mkQuery "a" "b" "starter" "600"
        (sign ("a" ++ "|" ++ "b" ++ "|" ++ "starter" ++ "|" ++ toString (600 : Int)) "s")) =
      some (true, "") :=
  (((C4_window_boundary ["starter"] "s" 1200
      (mkQuery "a" "b" "starter" "600"
        (sign ("a" ++ "|" ++ "b" ++ "|" ++ "starter" ++ "|" ++ toString (600 : Int)) "s"))
      "a" "b" "starter" "600"
      (sign ("a" ++ "|" ++ "b" ++ "|" ++ "starter" ++ "|" ++ toString (600 : Int)) "s") 600
      rfl rfl rfl rfl rfl rfl rfl rfl rfl rfl (by decide)).2
    (by decide) (by decide) rfl).1) (Or.inl (by decide))

/-- The post-parse check chain never produces the missing-parameters
message. -/
theorem chain_ne_missing (plans : List String) (secret : String) (now T : Int)
    (email shop plan sigv : String) :
    (if 600 < (now - T).natAbs then some (false, "SSO link expired.")
     else if !plans.contains plan then
       some (false, "Plan \x27" ++ plan ++ "\x27 not enabled.")
     else if secret = "" then
       some (false, "Server misconfigured (SSO secret missing).")
     else
       match compare_digest (sign (email ++ "|" ++ shop ++ "|" ++ plan ++ "|" ++ toString T) secret) sigv with
       | none => none
       | some ok =>
         if !ok then some (false, "Invalid SSO signature.")
         else some (true, "")) ≠
      some ((false : Bool), "Missing SSO parameters.") := by
  by_cases hw : 600 < (now - T).natAbs
  · rw [if_pos hw]
    decide
  · rw [if_neg hw]
    rcases hb1 : (!plans.contains plan) with _ | _
    · rw [if_neg (by decide : ¬((false : Bool) = true))]
      by_cases hsv : secret = ""
      · rw [if_pos hsv]
        decide
      · rw [if_neg hsv]
        rcases compare_digest (sign (email ++ "|" ++ shop ++ "|" ++ plan ++ "|" ++ toString T) secret) sigv with _ | ok
        · decide
        · rcases ok with _ | _ <;> decide
    · rw [if_pos rfl]
      intro h
      injection h with h1
      exact plan_msg_ne plan "Missing SSO parameters." (by decide) (congrArg Prod.snd h1)

/-- With all five keys present, the missing-parameters rejection never
occurs, whatever the field values, configuration or time. -/
theorem present_not_missing (plans : List String) (secret : String) (now : Int)
    (q : Query)
    (hpres : (["email", "shop", "plan", "ts", "sig"].any fun k =>
      (List.lookup k q).isNone) = false) :
    validate_sso plans secret now q ≠ some (false, "Missing SSO parameters.") := by
  unfold validate_sso
  rw [hpres, if_neg (by decide : ¬((false : Bool) = true))]
  rcases _val q "email" with _ | email
  · simp
  simp only [Option.some_bind]
  rcases _val q "shop" with _ | shop
  · simp
  simp only [Option.some_bind]
  rcases _val q "plan" with _ | plan
  · simp
  simp only [Option.some_bind]
  rcases _val q "ts" with _ | ts
  · simp
  simp only [Option.some_bind]
  rcases _val q "sig" with _ | sigv
  · simp
  simp only [Option.some_bind]
  rcases pyInt ts with _ | T
  · show some ((false : Bool), "Invalid timestamp.") ≠ some ((false : Bool), "Missing SSO parameters.")
    decide
  · exact chain_ne_missing plans secret now T email shop plan sigv

/-- C5 counterexample: all five keys are present but `email` is empty and the
timestamp does not parse; the result is the invalid-timestamp rejection, not
the missing-parameters rejection, although a field is empty. -/
theorem C5_counterexample :
    _val (mkQuery "" "b" "starter" "x" "y") "email" = some "" ∧
    validate_sso ["starter"] "s" 0 (mkQuery "" "b" "starter" "x" "y") =
      some (false, "Invalid timestamp.") := by
  exact ⟨rfl, by decide⟩

/-- C5 amended: the missing-parameters rejection occurs exactly when one of
the five keys is absent from the mapping (present-but-empty values pass the
first check), and with a key absent the same rejection is returned for every
configured secret, so no signature enters the outcome. -/
theorem C5_missing_iff_absent_key (plans : List String) (secret : String)
    (now : Int) (q : Query) :
    (validate_sso plans secret now q = some (false, "Missing SSO parameters.") ↔
      (["email", "shop", "plan", "ts", "sig"].any fun k =>
        (List.lookup k q).isNone) = true) ∧
    ((["email", "shop", "plan", "ts", "sig"].any fun k =>
        (List.lookup k q).isNone) = true →
      ∀ secret2 : String, validate_sso plans secret2 now q =
        some (false, "Missing SSO parameters.")) := by
  have hmiss : ∀ s2 : String,
      (["email", "shop", "plan", "ts", "sig"].any fun k =>
        (List.lookup k q).isNone) = true →
      validate_sso plans s2 now q = some (false, "Missing SSO parameters.") := by
    intro s2 h2
    unfold validate_sso
    rw [h2, if_pos rfl]
  refine ⟨⟨?_, fun h2 => hmiss secret h2⟩, fun h2 secret2 => hmiss secret2 h2⟩
  intro h
  rcases hb : (["email", "shop", "plan", "ts", "sig"].any fun k =>
      (List.lookup k q).isNone) with _ | _
  · exact absurd h (present_not_missing plans secret now q hb)
  · rfl

/-- C5 witness: with the four keys shop, plan, ts, sig absent the rejection
is missing-parameters, for any secret. -/
theorem C5_witness :
    validate_sso ["starter"] "s2" 0 [("email", QVal.single "a")] =
      some (false, "Missing SSO parameters.") :=
  (C5_missing_iff_absent_key ["starter"] "s" 0 [("email", QVal.single "a")]).2
    (by decide) "s2"

/-- C6: the checks short-circuit in the order presence, timestamp parse,
replay window, plan membership, secret presence, signature comparison: each
conjunct states one rejection happening regardless of everything checked
later; in particular a plan outside the allow-list is rejected as
plan-not-enabled regardless of the supplied signature and secret. The
parse-failure and signature-mismatch conjuncts restrict the relevant string
to ASCII, where the `int()` model coincides with CPython and the comparison
returns instead of raising `TypeError`. -/
theorem C6_check_order (plans : List String) (secret : String) (now : Int)
    (q : Query) (email shop plan ts sigv : String)
    (hkE : (List.lookup "email" q).isNone = false)
    (hkS : (List.lookup "shop" q).isNone = false)
    (hkP : (List.lookup "plan" q).isNone = false)
    (hkT : (List.lookup "ts" q).isNone = false)
    (hkG : (List.lookup "sig" q).isNone = false)
    (he : _val q "email" = some email) (hs : _val q "shop" = some shop)
    (hp : _val q "plan" = some plan) (ht : _val q "ts" = some ts)
    (hg : _val q "sig" = some sigv) :
    (isAsciiStr ts = true → pyInt ts = none →
      validate_sso plans secret now q = some (false, "Invalid timestamp.")) ∧
    (∀ T : Int, pyInt ts = some T → 600 < (now - T).natAbs →
      validate_sso plans secret now q = some (false, "SSO link expired.")) ∧
    (∀ T : Int, pyInt ts = some T → (now - T).natAbs ≤ 600 → plan ∉ plans →
      validate_sso plans secret now q =
        some (false, "Plan \x27" ++ plan ++ "\x27 not enabled.")) ∧
    (∀ T : Int, pyInt ts = some T → (now - T).natAbs ≤ 600 → plan ∈ plans →
      secret = "" →
      validate_sso plans secret now q =
        some (false, "Server misconfigured (SSO secret missing).")) ∧
    (∀ T : Int, pyInt ts = some T → (now - T).natAbs ≤ 600 → plan ∈ plans →
      secret ≠ "" → isAsciiStr sigv = true →
      sigv ≠ sign (email ++ "|" ++ shop ++ "|" ++ plan ++ "|" ++ toString T) secret →
      validate_sso plans secret now q = some (false, "Invalid SSO signature.")) := by
  refine ⟨?_, ?_, ?_, ?_, ?_⟩
  · intro hA hT
    exact validate_sso_extract_none plans secret now q email shop plan ts sigv
      hkE hkS hkP hkT hkG he hs hp ht hg hT
  · intro T hT hw
    rw [validate_sso_extract_some plans secret now q email shop plan ts sigv T
        hkE hkS hkP hkT hkG he hs hp ht hg hT,
      if_pos hw]
  · intro T hT hw hnot
    have hcf : plans.contains plan = false := by
      rcases hb : plans.contains plan with _ | _
      · rfl
      · exact absurd (List.mem_of_elem_eq_true hb) hnot
    have hb1 : (!plans.contains plan) = true := by
      rw [hcf]
      decide
    rw [validate_sso_extract_some plans secret now q email shop plan ts sigv T
        hkE hkS hkP hkT hkG he hs hp ht hg hT,
      if_neg (not_lt.mpr hw), hb1, if_pos rfl]
  · intro T hT hw hmem hse
    have hcont : plans.contains plan = true := List.elem_eq_true_of_mem hmem
    rw [validate_sso_extract_some plans secret now q email shop plan ts sigv T
        hkE hkS hkP hkT hkG he hs hp ht hg hT,
      if_neg (not_lt.mpr hw), hcont,
      if_neg (by decide : ¬((!(true : Bool)) = true)), if_pos hse]
  · intro T hT hw hmem hse hAs hsig
    have hcont : plans.contains plan = true := List.elem_eq_true_of_mem hmem
    have hcd : compare_digest
        (sign (email ++ "|" ++ shop ++ "|" ++ plan ++ "|" ++ toString T) secret) sigv =
        some ((sign (email ++ "|" ++ shop ++ "|" ++ plan ++ "|" ++ toString T) secret) == sigv) :=
      compare_digest_sign _ _ _ hAs
    have hbeq : ((sign (email ++ "|" ++ shop ++ "|" ++ plan ++ "|" ++ toString T) secret) == sigv) = false :=
      beq_eq_false_iff_ne.mpr fun h2 => hsig h2.symm
    rw [validate_sso_extract_some plans secret now q email shop plan ts sigv T
        hkE hkS hkP hkT hkG he hs hp ht hg hT,
      if_neg (not_lt.mpr hw), hcont,
      if_neg (by decide : ¬((!(true : Bool)) = true)), if_neg hse, hcd, hbeq]
    rfl

/-- C6 witness: a disabled plan is rejected as plan-not-enabled even though
the secret is empty and the signature is bogus. -/
theorem C6_witness :
    validate_sso ["starter"] "" 0 (mkQuery "a" "b" "pro" "0" "x") =
      some (false, "Plan \x27pro\x27 not enabled.") :=
  (C6_check_order ["starter"] "" 0 (mkQuery "a" "b" "pro" "0" "x")
      "a" "b" "pro" "0" "x" rfl rfl rfl rfl rfl rfl rfl rfl rfl rfl).2.2.1
    0 (by decide) (by decide) (by decide)

/-- C7: verification uses one canonical string form of the timestamp, the
decimal restringification of the parsed integer: two raw `ts` strings
parsing to the same integer verify identically, and acceptance is exactly
supplying the HMAC of the payload that ends in the canonical decimal form. -/
theorem C7_canonical_timestamp (plans : List String) (secret : String) (now : Int)
    (email shop plan sigv : String) (T : Int) :
    (∀ ts1 ts2 : String, pyInt ts1 = some T → pyInt ts2 = some T →
      validate_sso plans secret now (mkQuery email shop plan ts1 sigv) =
        validate_sso plans secret now (mkQuery email shop plan ts2 sigv)) ∧
    (∀ ts : String, pyInt ts = some T → (now - T).natAbs ≤ 600 →
      plan ∈ plans → secret ≠ "" →
      (validate_sso plans secret now (mkQuery email shop plan ts sigv) =
          some (true, "") ↔
        sigv = sign (email ++ "|" ++ shop ++ "|" ++ plan ++ "|" ++ toString T) secret)) := by
  constructor
  · intro ts1 ts2 h1 h2
    rw [validate_sso_extract_some plans secret now (mkQuery email shop plan ts1 sigv)
        email shop plan ts1 sigv T rfl rfl rfl rfl rfl rfl rfl rfl rfl rfl h1,
      validate_sso_extract_some plans secret now (mkQuery email shop plan ts2 sigv)
        email shop plan ts2 sigv T rfl rfl rfl rfl rfl rfl rfl rfl rfl rfl h2]
  · intro ts hT hwin hmem hsec
    have hcont : plans.contains plan = true := List.elem_eq_true_of_mem hmem
    rw [validate_sso_extract_some plans secret now (mkQuery email shop plan ts sigv)
        email shop plan ts sigv T rfl rfl rfl rfl rfl rfl rfl rfl rfl rfl hT,
      if_neg (not_lt.mpr hwin), hcont,
      if_neg (by decide : ¬((!(true : Bool)) = true)), if_neg hsec]
    rcases hA : isAsciiStr sigv with _ | _
    · rw [compare_digest_nonascii _ _ hA]
      constructor
      · intro h
        exact absurd h (by decide)
      · intro h
        rw [h, sign_ascii] at hA
        exact absurd hA (by decide)
    · rw [compare_digest_sign _ _ _ hA]
      by_cases hEq : sigv = sign (email ++ "|" ++ shop ++ "|" ++ plan ++ "|" ++ toString T) secret
      · subst hEq
        simp
      · have hb : (sign (email ++ "|" ++ shop ++ "|" ++ plan ++ "|" ++ toString T) secret == sigv) = false :=
          beq_eq_false_iff_ne.mpr fun h2 => hEq h2.symm
        rw [hb]
        constructor
        · intro h
          exact absurd h (by decide)
        · intro h
          exact absurd h hEq

/-- C7 witness: the raw timestamp 0600 is accepted against the signature of
the payload ending in the canonical form 600. -/
theorem C7_witness :
    validate_sso ["starter"] "s" 600
      (mkQuery "a" "b" "starter" "0600"
        (sign ("a" ++ "|" ++ "b" ++ "|" ++ "starter" ++ "|" ++ toString (600 : Int)) "s")) =
      some (true, "") :=
  ((C7_canonical_timestamp ["starter"] "s" 600 "a" "b" "starter"
      (sign ("a" ++ "|" ++ "b" ++ "|" ++ "starter" ++ "|" ++ toString (600 : Int)) "s") 600).2
    "0600" (by decide) (by decide) (by decide) (by decide)).mpr rfl

/-- C8 counterexample: an accepted request whose raw `ts` (0600) is not the
canonical decimal form: the outbound header signature, computed over the raw
string, differs from the expected signature the verifier recomputed over the
canonical form, although no distinct downstream secret is configured. -/
theorem C8_counterexample :
    validate_sso ["starter"] "s" 600
      (mkQuery "a" "b" "starter" "0600" (sign "a|b|starter|600" "s")) =
      some (true, "") ∧
    _sig_header (DATA_API_SECRET none "s") "a" "b" "starter" "0600" ≠
      sign "a|b|starter|600" "s" := by
  constructor
  · decide
  · decide

/-- C8 amended: the outbound header is the hex HMAC-SHA256 of the payload
`email|shop|plan|ts` built from the RAW `ts` string, keyed with the
downstream secret, which defaults to the inbound secret when unset; it
equals the verifier's recomputed expected signature when `ts` is already in
canonical decimal form. -/
theorem C8_header_raw_ts (ssoSecret email shop plan ts : String) :
    (_sig_header (DATA_API_SECRET none ssoSecret) email shop plan ts =
      sign (email ++ "|" ++ shop ++ "|" ++ plan ++ "|" ++ ts)
        (if ssoSecret = "" then "" else ssoSecret)) ∧
    (∀ T : Int, ts = toString T → ssoSecret ≠ "" →
      _sig_header (DATA_API_SECRET none ssoSecret) email shop plan ts =
        sign (email ++ "|" ++ shop ++ "|" ++ plan ++ "|" ++ toString T) ssoSecret) := by
  constructor
  · rfl
  · intro T hts hsec
    subst hts
    simp only [_sig_header, DATA_API_SECRET, Option.getD_none]
    rw [if_neg hsec]

/-- C8 witness: with a canonical raw timestamp the outbound header equals the
verifier's expected signature. -/
theorem C8_witness :
    _sig_header (DATA_API_SECRET none "s") "a" "b" "starter" "600" =
      sign ("a" ++ "|" ++ "b" ++ "|" ++ "starter" ++ "|" ++ toString (600 : Int)) "s" :=
  (C8_header_raw_ts "s" "a" "b" "starter" "600").2 600 (by decide) (by decide)

/-- C9: verification behaves on a multi-value mapping exactly as on the
mapping in which every non-empty list value is replaced by its first
element; the normalization happens once, in field extraction. -/
theorem C9_first_value_wins (plans : List String) (secret : String) (now : Int)
    (q : Query) :
    validate_sso plans secret now q = validate_sso plans secret now (firstVals q) := by
  unfold validate_sso
  simp only [isNone_lookup_firstVals, _val_firstVals]

/-- The post-parse check chain returns a value whenever the supplied
signature string is ASCII (so the comparison cannot raise). -/
theorem chain_isSome (plans : List String) (secret : String) (now T : Int)
    (email shop plan sigv : String) (hA : isAsciiStr sigv = true) :
    (if 600 < (now - T).natAbs then some (false, "SSO link expired.")
     else if !plans.contains plan then
       some (false, "Plan \x27" ++ plan ++ "\x27 not enabled.")
     else if secret = "" then
       some (false, "Server misconfigured (SSO secret missing).")
     else
       match compare_digest (sign (email ++ "|" ++ shop ++ "|" ++ plan ++ "|" ++ toString T) secret) sigv with
       | none => none
       | some ok =>
         if !ok then some (false, "Invalid SSO signature.")
         else some ((true : Bool), "")).isSome = true := by
  split
  · rfl
  split
  · rfl
  split
  · rfl
  rw [compare_digest_sign _ _ _ hA]
  rcases ((sign (email ++ "|" ++ shop ++ "|" ++ plan ++ "|" ++ toString T) secret) == sigv) with _ | _ <;> rfl

/-- C10 counterexample: with all five keys present but `email` bound to an
empty list, `validate_sso` raises (IndexError in `_val`); and with all-string
values whose `sig` is the non-ASCII character with code point 233,
`hmac.compare_digest` raises `TypeError`. Both exceptions are modelled as
`none`: no pair is returned. -/
theorem C10_counterexample :
    validate_sso ["starter"] "s" 0
      [("email", QVal.multi []), ("shop", QVal.single "b"),
       ("plan", QVal.single "starter"), ("ts", QVal.single "0"),
       ("sig", QVal.single "x")] = none ∧
    validate_sso ["starter"] "s" 0
      (mkQuery "a" "b" "starter" "0" ⟨[Char.ofNat 233]⟩) = none := by
  constructor
  · decide
  · decide

/-- C10 amended: on every mapping whose values are strings or NON-EMPTY lists
of strings and whose extracted `sig` value is ASCII, `validate_sso` returns a
(bool, reason) pair and never raises; an empty-list value under a present
required key raises IndexError, and a non-ASCII `sig` that reaches the final
comparison raises `TypeError`. -/
theorem C10_total_on_safe_inputs (plans : List String) (secret : String)
    (now : Int) (q : Query) (hq : ∀ p ∈ q, p.2 ≠ QVal.multi [])
    (hsig : Option.all isAsciiStr (_val q "sig") = true) :
    (validate_sso plans secret now q).isSome = true := by
  unfold validate_sso
  split
  · rfl
  · obtain ⟨email, he⟩ := Option.isSome_iff_exists.mp (_val_isSome hq "email")
    rw [he]
    simp only [Option.some_bind]
    obtain ⟨shop, hs⟩ := Option.isSome_iff_exists.mp (_val_isSome hq "shop")
    rw [hs]
    simp only [Option.some_bind]
    obtain ⟨plan, hp⟩ := Option.isSome_iff_exists.mp (_val_isSome hq "plan")
    rw [hp]
    simp only [Option.some_bind]
    obtain ⟨ts, ht⟩ := Option.isSome_iff_exists.mp (_val_isSome hq "ts")
    rw [ht]
    simp only [Option.some_bind]
    obtain ⟨sigv, hg⟩ := Option.isSome_iff_exists.mp (_val_isSome hq "sig")
    rw [hg] at hsig ⊢
    simp only [Option.some_bind]
    rcases pyInt ts with _ | T
    · rfl
    · exact chain_isSome plans secret now T email shop plan sigv hsig

/-- C10 witness: a mapping with only single ASCII string values yields a
returned pair. -/
theorem C10_witness :
    (validate_sso ["starter"] "s" 0 (mkQuery "a" "b" "starter" "0" "x")).isSome = true :=
  C10_total_on_safe_inputs ["starter"] "s" 0 (mkQuery "a" "b" "starter" "0" "x")
    (by decide) (by decide)

/-- C2 witness: the concrete scenario of the spec is accepted. -/
theorem C2_witness :
    validate_sso ["starter"] "topsecret" 1700000000
      (mkQuery "a@b.com" "demo.myshopify.com" "starter" "1700000000"
        (sign ("a@b.com" ++ "|" ++ "demo.myshopify.com" ++ "|" ++ "starter" ++ "|" ++ toString (1700000000 : Int)) "topsecret")) =
      some (true, "") :=
  C2_valid_signature_accepted ["starter"] "topsecret" 1700000000
    "a@b.com" "demo.myshopify.com" "starter" "1700000000" 1700000000
    (by decide) (by decide) (by decide) (by decide) (by decide) (by decide)
    (by decide) (by decide)

end KPIQ
